import Mathlib

/-!
Verification of `hass-solar-forecast-ml` (custom_components/solar_forecast_ml).

Shallow embedding of the battery simulator (`forecast_battery.py`,
`forecast_battery_capacity`), the grid exchange simulator (`forecast_grid.py`,
`forecast_grid`), the coordinator prediction loop
(`forecast_coordinator.py`, `_async_update_data`), and the interval
aggregation (`forecast_data.py`, `ForecastData.aggregate_by_interval`).

Python floats are modelled as rationals.  Hour-keyed dictionaries
(`solar_hourly`, `cons_by_hour`, `batt_by_hour`) are modelled as functions
from the hour index (hours since the simulation start) to `Option`-values;
`dict.get(key, default)` becomes `Option.getD`.  Timestamps in the
aggregation code are modelled as rational minutes of local time; a calendar
day is 1440 minutes and `datetime.combine(d.date(), time(12, 0))` becomes
`1440 * floor(t / 1440) + 720`.
-/

namespace SolarForecastML

/-- A three-scenario record: the "min", "med", "max" channels of one
forecast point (the values of a `{"min": ..., "med": ..., "max": ...}`
dict in the source). -/
structure Scen where
  min : ℚ
  med : ℚ
  max : ℚ
deriving DecidableEq

def zeroScen : Scen := ⟨0, 0, 0⟩

/-- The pattern `max(lo, min(hi, x))`, the clamping of
`forecast_battery.py` lines 148-156. -/
def clampQ (lo hi x : ℚ) : ℚ := max lo (min hi x)

/-!  ## Battery simulator (`forecast_battery.py`, `forecast_battery_capacity`)  -/

/-- One hourly step of the battery simulation
(`forecast_battery.py` lines 143-156): cross-paired net energies
(`net_energy_min = solar - consumption["max"]`, etc.) added to the carried
energies and clamped to `[batt_min_energy, batt_max_energy]`. -/
def battStep (battMinEnergy battMaxEnergy solarPower : ℚ) (cons e : Scen) : Scen :=
  { min := clampQ battMinEnergy battMaxEnergy (e.min + (solarPower - cons.max))
    med := clampQ battMinEnergy battMaxEnergy (e.med + (solarPower - cons.med))
    max := clampQ battMinEnergy battMaxEnergy (e.max + (solarPower - cons.min)) }

/-- Carried scenario energies after `t` hourly steps of the battery
simulation (`current_energy_min/med/max` in the source's `while` loop).
`solar t` models `solar_hourly.get(sim_time, 0.0)` and `cons t` models
`cons_by_hour.get(sim_time, {"min": 0.0, "med": 0.0, "max": 0.0})` for the
`t`-th simulated hour. -/
def battSimEnergies (battMinEnergy battMaxEnergy : ℚ) (solar : ℕ → Option ℚ)
    (cons : ℕ → Option Scen) (e0 : Scen) : ℕ → Scen
  | 0 => e0
  | t + 1 =>
      battStep battMinEnergy battMaxEnergy ((solar t).getD 0) ((cons t).getD zeroScen)
        (battSimEnergies battMinEnergy battMaxEnergy solar cons e0 t)

/-- Energy-to-capacity conversion `new_energy / max_energy * 100.0`
(`forecast_battery.py` lines 159-161), applied to all three channels. -/
def toCapacity (maxEnergy : ℚ) (e : Scen) : Scen :=
  ⟨e.min / maxEnergy * 100, e.med / maxEnergy * 100, e.max / maxEnergy * 100⟩

/-- The function `forecast_battery_capacity(hass, days)`, values only (the `"time"`
labels are dropped; the list is in simulation order).  The head element is
the synthetic "now" record carrying `current_capacity` on all three
channels; then one capacity record per simulated hour for
`days * 24` hours. -/
def forecast_battery_capacity (currentCapacity maxEnergy minSocPct maxSocPct : ℚ)
    (solar : ℕ → Option ℚ) (cons : ℕ → Option Scen) (days : ℕ) : List Scen :=
  let battMinEnergy := maxEnergy * (minSocPct / 100)
  let battMaxEnergy := maxEnergy * (maxSocPct / 100)
  let e0 : Scen := ⟨currentCapacity / 100 * maxEnergy, currentCapacity / 100 * maxEnergy,
    currentCapacity / 100 * maxEnergy⟩
  ⟨currentCapacity, currentCapacity, currentCapacity⟩ ::
    (List.range (days * 24)).map fun t =>
      toCapacity maxEnergy (battSimEnergies battMinEnergy battMaxEnergy solar cons e0 (t + 1))

/-!  ## Grid exchange simulator (`forecast_grid.py`, `forecast_grid`)  -/

/-- One scenario branch of the grid computation (`forecast_grid.py`
lines 151-172): export `solar - cons` when solar exceeds the paired
consumption and the paired battery reading is at or above the max
threshold; import `cons - solar` (positive) when consumption exceeds solar
and the paired battery reading is at or below the min threshold; else 0. -/
def gridScenario (battMinThreshold battMaxThreshold solarPower consVal battVal : ℚ) : ℚ :=
  if solarPower > consVal ∧ battVal ≥ battMaxThreshold then solarPower - consVal
  else if solarPower < consVal ∧ battVal ≤ battMinThreshold then consVal - solarPower
  else 0

/-- The function `forecast_grid(hass, days)`, values only, one record per simulated hour
for `days * 24` hours.  Per the source: the output "min" channel uses
`cons["min"]` and `batt["max"]`, "med" uses `cons["med"]` and `batt["med"]`,
"max" uses `cons["max"]` and `batt["min"]`; a missing battery entry for the
hour (`batt_by_hour.get` default, all channels `None`) yields 0 on every
channel, while missing solar / consumption entries default to value 0.0. -/
def forecast_grid (battMinThreshold battMaxThreshold : ℚ) (solar : ℕ → Option ℚ)
    (cons batt : ℕ → Option Scen) (days : ℕ) : List Scen :=
  (List.range (days * 24)).map fun t =>
    let solarPower := (solar t).getD 0
    let c := (cons t).getD zeroScen
    match batt t with
    | none => zeroScen
    | some b =>
        ⟨gridScenario battMinThreshold battMaxThreshold solarPower c.min b.max,
         gridScenario battMinThreshold battMaxThreshold solarPower c.med b.med,
         gridScenario battMinThreshold battMaxThreshold solarPower c.max b.min⟩

/-!  ## Coordinator prediction loop (`forecast_coordinator.py`, `_async_update_data`)  -/

/-- The four forecast kinds used as keys of `self.forecasts`
(`const.FORECAST_DATA_PV_POWER`, `..._POWER_CONSUMPTION`, `..._BATTERY`,
`..._GRID`). -/
inductive ForecastKind
  | pvPower
  | powerConsumption
  | battery
  | grid
deriving DecidableEq

def allKinds : List ForecastKind :=
  [ForecastKind.pvPower, ForecastKind.powerConsumption, ForecastKind.battery, ForecastKind.grid]

/-- A `PredictionTask`, reduced to its scheduling data: its forecast key
and its `update_interval` (in minutes).  The `predict_callable`'s behaviour
on a given tick is modelled separately by an `outcomes` function. -/
structure PredictionTask where
  key : ForecastKind
  updateInterval : ℤ

/-- The coordinator's mutable per-task and per-kind state:
`self.forecasts` (dict from forecast kind to the latest result) and each
task's `last_run` timestamp (indexed by the task's key, which is unique in
the code's task list). -/
structure CoordState (D : Type) where
  forecasts : ForecastKind → Option D
  lastRun : ForecastKind → Option ℤ

/-- Method `PredictionTask.needs_update`: true when `last_run is None` or
`now - last_run >= update_interval`. -/
def needsUpdate {D : Type} (task : PredictionTask) (st : CoordState D) (now : ℤ) : Bool :=
  match st.lastRun task.key with
  | none => true
  | some lastRun => decide (task.updateInterval ≤ now - lastRun)

/-- Pointwise update of a finite map, modelling `dict[key] = value`. -/
def updFun {α β : Type} [DecidableEq α] (f : α → β) (a : α) (b : β) : α → β :=
  fun x => if x = a then b else f x

/-- The quantity `len(self.forecasts)`: the number of forecast kinds that have ever
produced a result (the dict only ever receives the four task keys). -/
def storedCount {D : Type} (forecasts : ForecastKind → Option D) : ℕ :=
  (allKinds.filter fun k => (forecasts k).isSome).length

/-- The prediction-task loop of `_async_update_data`
(`forecast_coordinator.py` lines 193-210).  `numTasks` is
`len(self.prediction_tasks)`; `outcomes k` is what this tick's
`predict_callable` for the task keyed `k` does (`some d`: returns `d`;
`none`: raises).  On success the result is stored under the task's key,
the last-run time is stamped, and the result is appended to
`executed_forecasts`; on failure, if not every kind has a stored result
the tick escalates (`raise ConfigEntryNotReady`, modelled as
`Except.error ()`), otherwise the failure is only logged and the loop
continues with the state unchanged. -/
def runPredictionTasksGo {D : Type} (numTasks : ℕ) (now : ℤ) (outcomes : ForecastKind → Option D) :
    List PredictionTask → CoordState D → Except Unit (CoordState D × List (ForecastKind × D))
  | [], st => Except.ok (st, [])
  | task :: rest, st =>
      if needsUpdate task st now then
        match outcomes task.key with
        | some d =>
            let st' : CoordState D :=
              ⟨updFun st.forecasts task.key (some d), updFun st.lastRun task.key (some now)⟩
            match runPredictionTasksGo numTasks now outcomes rest st' with
            | Except.ok (stFinal, executed) => Except.ok (stFinal, (task.key, d) :: executed)
            | Except.error e => Except.error e
        | none =>
            if storedCount st.forecasts ≠ numTasks then Except.error ()
            else runPredictionTasksGo numTasks now outcomes rest st
      else runPredictionTasksGo numTasks now outcomes rest st

/-- The code's `self.prediction_tasks`: solar and consumption predictions
every 15 minutes, battery and grid predictions every minute, in this fixed
order. -/
def predictionTasks : List PredictionTask :=
  [⟨ForecastKind.pvPower, 15⟩, ⟨ForecastKind.powerConsumption, 15⟩,
   ⟨ForecastKind.battery, 1⟩, ⟨ForecastKind.grid, 1⟩]

/-- One tick's prediction phase over the code's task list. -/
def runPredictionTasks {D : Type} (now : ℤ) (outcomes : ForecastKind → Option D)
    (st : CoordState D) : Except Unit (CoordState D × List (ForecastKind × D)) :=
  runPredictionTasksGo predictionTasks.length now outcomes predictionTasks st

/-!  ## Interval aggregation (`forecast_data.py`, `ForecastData.aggregate_by_interval`)

Points carry a timestamp (rational minutes of local time) and the three
channel values; all three value fields are assumed present on every point
(as produced by the three-channel forecast producers).  `fn` is the
validated aggregation mode.  `pp` models `post_process_fn`
(identity when the Python argument is `None`). -/

structure TimedScen where
  time : ℚ
  vals : Scen
deriving DecidableEq

inductive AggFn
  | sum
  | average
deriving DecidableEq

/-- Channel-wise accumulation `current_interval[field] += point[field]`. -/
def addScen (a b : Scen) : Scen := ⟨a.min + b.min, a.med + b.med, a.max + b.max⟩

/-- The label `datetime.combine(t.date(), time(12, 0))` on a local-time timestamp in
minutes: noon of the calendar day containing `t`. -/
def noonOfDate (t : ℚ) : ℚ := 1440 * (⌊t / 1440⌋ : ℚ) + 720

/-- The per-field aggregation: the accumulated total for `"sum"`, the
total divided by `points_in_interval` for `"average"`. -/
def aggChannel (fn : AggFn) (total : ℚ) (count : ℕ) : ℚ :=
  match fn with
  | AggFn.sum => total
  | AggFn.average => total / (count : ℚ)

/-- Emission of one completed bucket (`forecast_data.py` lines 106-134 and
149-173): label at noon of the day containing `interval_start + interval/2`,
each channel aggregated then post-processed. -/
def emitBucket (fn : AggFn) (pp : ℚ → ℚ) (interval intervalStart : ℚ) (sums : Scen)
    (count : ℕ) : TimedScen :=
  ⟨noonOfDate (intervalStart + interval / 2),
   ⟨pp (aggChannel fn sums.min count), pp (aggChannel fn sums.med count),
    pp (aggChannel fn sums.max count)⟩⟩

/-- The point loop of `aggregate_by_interval` after the first point has
set `interval_start`: a point within `interval` of the current bucket's
start is accumulated; otherwise the bucket is emitted and the point starts
a new bucket anchored at its own timestamp.  At the end the trailing
bucket is emitted when it collected any points. -/
def aggGo (fn : AggFn) (pp : ℚ → ℚ) (interval : ℚ) :
    List TimedScen → ℚ → Scen → ℕ → List TimedScen
  | [], intervalStart, sums, count =>
      if 0 < count then [emitBucket fn pp interval intervalStart sums count] else []
  | p :: rest, intervalStart, sums, count =>
      if p.time - intervalStart < interval then
        aggGo fn pp interval rest intervalStart (addScen sums p.vals) (count + 1)
      else
        emitBucket fn pp interval intervalStart sums count ::
          aggGo fn pp interval rest p.time p.vals 1

/-- Method `ForecastData.aggregate_by_interval(fn, pp, interval)` on a series
whose points all carry the three channels.  An empty series yields `[]`;
otherwise the first point sets `interval_start` to its own timestamp and
goes through the same membership test as every other point. -/
def aggregate_by_interval (fn : AggFn) (pp : ℚ → ℚ) (interval : ℚ) :
    List TimedScen → List TimedScen
  | [] => []
  | p :: rest =>
      if p.time - p.time < interval then aggGo fn pp interval rest p.time p.vals 1
      else
        emitBucket fn pp interval p.time zeroScen 0 :: aggGo fn pp interval rest p.time p.vals 1

/-- Reference bucketing implemented by the source loop: each bucket starts
at its first point's timestamp and greedily collects the following points
whose distance from that start is below `interval`; the first point at
distance `interval` or more closes the bucket and anchors the next one. -/
def greedyBuckets (interval : ℚ) : List TimedScen → List (List TimedScen)
  | [] => []
  | p :: rest =>
      (p :: rest.takeWhile fun q => q.time - p.time < interval) ::
        greedyBuckets interval (rest.dropWhile fun q => q.time - p.time < interval)
termination_by l => l.length
decreasing_by
  simp only [List.length_cons]
  exact Nat.lt_succ_of_le (List.dropWhile_sublist _).length_le

/-- The aggregate record of one (non-empty) greedy bucket: anchored at its
first point, all points' channels accumulated, counted, and emitted. -/
def bucketAgg (fn : AggFn) (pp : ℚ → ℚ) (interval : ℚ) : List TimedScen → TimedScen
  | [] => emitBucket fn pp interval 0 zeroScen 0
  | p :: rest =>
      emitBucket fn pp interval p.time (rest.foldl (fun s q => addScen s q.vals) p.vals)
        (rest.length + 1)

/-- Modelled from the spec sentence under examination for the
fixed-window reading: the index of the fixed window (anchored at the first
point's timestamp `t0`, of width `interval`) containing a point. -/
def windowIndex (interval t0 : ℚ) (q : TimedScen) : ℤ := ⌊(q.time - t0) / interval⌋

/-- Modelled from the spec sentence under examination: consecutive runs of
points falling in the same fixed window `[t0 + k*interval, t0 + (k+1)*interval)`. -/
def fixedWindowBuckets (interval t0 : ℚ) : List TimedScen → List (List TimedScen)
  | [] => []
  | p :: rest =>
      (p :: rest.takeWhile fun q => windowIndex interval t0 q = windowIndex interval t0 p) ::
        fixedWindowBuckets interval t0
          (rest.dropWhile fun q => windowIndex interval t0 q = windowIndex interval t0 p)
termination_by l => l.length
decreasing_by
  simp only [List.length_cons]
  exact Nat.lt_succ_of_le (List.dropWhile_sublist _).length_le

/-- Modelled from the spec sentence under examination: the aggregate of
one fixed window, labeled with the window midpoint's date at local noon. -/
def bucketAggFixed (fn : AggFn) (pp : ℚ → ℚ) (interval t0 : ℚ) : List TimedScen → TimedScen
  | [] => emitBucket fn pp interval t0 zeroScen 0
  | p :: rest =>
      ⟨noonOfDate (t0 + (windowIndex interval t0 p : ℚ) * interval + interval / 2),
       ⟨pp (aggChannel fn (rest.foldl (fun s q => addScen s q.vals) p.vals).min (rest.length + 1)),
        pp (aggChannel fn (rest.foldl (fun s q => addScen s q.vals) p.vals).med (rest.length + 1)),
        pp (aggChannel fn (rest.foldl (fun s q => addScen s q.vals) p.vals).max (rest.length + 1))⟩⟩

/-- Modelled from the spec sentence under examination (the claimed
behaviour of `aggregate_by_interval`): partition into consecutive
fixed-size windows anchored at the first point's timestamp, aggregate each
window's channels, label each emitted point with the window midpoint's
date at local noon, and emit the trailing partial window. -/
def aggregateFixedWindows (fn : AggFn) (pp : ℚ → ℚ) (interval : ℚ)
    (pts : List TimedScen) : List TimedScen :=
  match pts with
  | [] => []
  | p :: _ => (fixedWindowBuckets interval p.time pts).map (bucketAggFixed fn pp interval p.time)

/-- Concrete three-point series (times in minutes: 0, 1740 = day 1 05:00,
2940 = day 2 01:00) used to exercise the aggregation on a gap that spans a
window boundary. -/
def aggCexPts : List TimedScen :=
  [⟨0, ⟨1, 1, 1⟩⟩, ⟨1740, ⟨2, 2, 2⟩⟩, ⟨2940, ⟨4, 4, 4⟩⟩]



/-- Helper: a clamped value lies in the clamp interval when the bounds are ordered. -/
theorem clampQ_mem (lo hi x : ℚ) (h : lo ≤ hi) : lo ≤ clampQ lo hi x ∧ clampQ lo hi x ≤ hi :=
  ⟨le_max_left _ _, max_le h (min_le_left _ _)⟩

/-- Helper: clamping is monotone in its argument. -/
theorem clampQ_mono (lo hi : ℚ) {x y : ℚ} (h : x ≤ y) : clampQ lo hi x ≤ clampQ lo hi y :=
  max_le_max le_rfl (min_le_min le_rfl h)

/-- Helper: clamping a value already inside the bounds returns it unchanged. -/
theorem clampQ_eq_self {lo hi x : ℚ} (h1 : lo ≤ x) (h2 : x ≤ hi) : clampQ lo hi x = x := by
  unfold clampQ
  rw [min_eq_right h2, max_eq_right h1]

/-- Helper: each branch of one grid scenario yields a non-negative value. -/
theorem gridScenario_nonneg (bminT bmaxT s c v : ℚ) : 0 ≤ gridScenario bminT bmaxT s c v := by
  unfold gridScenario
  split_ifs with h1 h2
  · linarith [h1.1]
  · linarith [h2.1]
  · exact le_refl 0

/-- Helper evaluation: with solar 100 W, consumption channels 50/75/200,
battery channels 95/95/95 and thresholds 10/90, the source emits
min = 100 - 50 = 50 (from `cons["min"]` and `batt["max"]`),
med = 100 - 75 = 25, max = 0 (its first guard compares solar to
`cons["max"]` = 200). -/
theorem gridEval1 :
    (forecast_grid 10 90 (fun _ => some 100) (fun _ => some ⟨50, 75, 200⟩)
        (fun _ => some ⟨95, 95, 95⟩) 1)[0]? = some ⟨50, 25, 0⟩ := by
  have g1 : gridScenario 10 90 100 50 95 = 50 := by
    unfold gridScenario; rw [if_pos (by norm_num)]; norm_num
  have g2 : gridScenario 10 90 100 75 95 = 25 := by
    unfold gridScenario; rw [if_pos (by norm_num)]; norm_num
  have g3 : gridScenario 10 90 100 200 95 = 0 := by
    unfold gridScenario; rw [if_neg (by norm_num), if_neg (by norm_num)]
  unfold forecast_grid
  rw [List.getElem?_map, List.getElem?_range (by norm_num)]
  simp [g1, g2, g3]

/-- C10: every value emitted by the grid exchange simulator is
non-negative in all three channels, for all inputs: each branch emits
either a difference made positive by its own guard or zero, so a grid
deficit is reported as a positive magnitude, never negative. -/
theorem grid_values_nonneg (bminT bmaxT : ℚ) (solar : ℕ → Option ℚ)
    (cons batt : ℕ → Option Scen) (days : ℕ) :
    ∀ p ∈ forecast_grid bminT bmaxT solar cons batt days,
      0 ≤ p.min ∧ 0 ≤ p.med ∧ 0 ≤ p.max := by
  intro p hp
  unfold forecast_grid at hp
  rw [List.mem_map] at hp
  obtain ⟨t, -, rfl⟩ := hp
  cases h : batt t
  · simp [h, zeroScen]
  · simp only [h]
    exact ⟨gridScenario_nonneg _ _ _ _ _, gridScenario_nonneg _ _ _ _ _,
      gridScenario_nonneg _ _ _ _ _⟩

/-- Witness for C10 at the concrete evaluation of `gridEval1`. -/
theorem grid_values_nonneg_witness :
    0 ≤ (Scen.mk 50 25 0).min ∧ 0 ≤ (Scen.mk 50 25 0).med ∧ 0 ≤ (Scen.mk 50 25 0).max :=
  grid_values_nonneg 10 90 (fun _ => some 100) (fun _ => some ⟨50, 75, 200⟩)
    (fun _ => some ⟨95, 95, 95⟩) 1 _ (List.getElem?_mem gridEval1)

/-- C1 (code bug evaluation): the claim (and the source's own inline
comments) say the grid output's min channel pairs with consumption-max
(which here would give `gridScenario 10 90 100 200 95 = 0`), but the code
pairs it with consumption-min and emits 50; symmetrically the max channel
pairs with consumption-max instead of the claimed consumption-min.  The
battery pairing (min channel with `batt["max"]`) matches the claim. -/
theorem grid_pairing_bug_eval :
    (forecast_grid 10 90 (fun _ => some 100) (fun _ => some ⟨50, 75, 200⟩)
        (fun _ => some ⟨95, 95, 95⟩) 1)[0]? = some ⟨50, 25, 0⟩ ∧
    gridScenario 10 90 100 50 95 = 50 ∧ gridScenario 10 90 100 200 95 = 0 := by
  refine ⟨gridEval1, ?_, ?_⟩
  · unfold gridScenario; rw [if_pos (by norm_num)]; norm_num
  · unfold gridScenario; rw [if_neg (by norm_num), if_neg (by norm_num)]

/-- C6 (amended): when the battery series has no entry for a simulated
hour, the grid exchange emitted for that hour is zero in all three
scenario channels and no error is raised.  (Missing solar or consumption
entries instead default the value to 0.0 and may yield nonzero exchange,
see the counterexample.) -/
theorem grid_missing_battery_zero (bminT bmaxT : ℚ) (solar : ℕ → Option ℚ)
    (cons batt : ℕ → Option Scen) (days : ℕ) (t : ℕ) (ht : t < days * 24)
    (hb : batt t = none) :
    (forecast_grid bminT bmaxT solar cons batt days)[t]? = some zeroScen := by
  unfold forecast_grid
  rw [List.getElem?_map, List.getElem?_range ht]
  simp [hb]

/-- Witness for C6 (amended) at hour 0 of a one-day run with no battery data. -/
theorem grid_missing_battery_zero_witness :
    (0 : ℕ) < 1 * 24 ∧
      (forecast_grid 10 90 (fun _ => some 100) (fun _ => some ⟨50, 75, 200⟩)
          (fun _ => none) 1)[0]? = some zeroScen :=
  ⟨by norm_num,
   grid_missing_battery_zero 10 90 (fun _ => some 100) (fun _ => some ⟨50, 75, 200⟩)
     (fun _ => none) 1 0 (by norm_num) rfl⟩

/-- Counterexample to C6 as stated: at an hour where the solar series has
no data but consumption (100/100/100) and battery (5/5/5, at or below the
min threshold 10) do, the code emits 100 on every channel, not zero. -/
theorem grid_missing_input_cex :
    (forecast_grid 10 90 (fun _ => none) (fun _ => some ⟨100, 100, 100⟩)
        (fun _ => some ⟨5, 5, 5⟩) 1)[0]? = some ⟨100, 100, 100⟩ ∧
    (fun _ : ℕ => (none : Option ℚ)) 0 = none ∧ (⟨100, 100, 100⟩ : Scen) ≠ zeroScen := by
  refine ⟨?_, rfl, ?_⟩
  · have g : gridScenario 10 90 0 100 5 = 100 := by
      unfold gridScenario; rw [if_neg (by norm_num), if_pos (by norm_num)]; norm_num
    unfold forecast_grid
    rw [List.getElem?_map, List.getElem?_range (by norm_num)]
    simp [g]
  · simp [zeroScen]

/-- C3: after every single hourly step of the battery simulation, the
carried energy of each of the three scenario channels lies within
`[batt_min_energy, batt_max_energy]`, where the bounds are the configured
min/max SOC percentages times the maximum battery energy (hypotheses
`hbmin`/`hbmax`) and the bounds are ordered. -/
theorem batt_energy_within_bounds (maxEnergy minSocPct maxSocPct battMinEnergy battMaxEnergy : ℚ)
    (solar : ℕ → Option ℚ) (cons : ℕ → Option Scen) (e0 : Scen)
    (hbmin : battMinEnergy = maxEnergy * (minSocPct / 100))
    (hbmax : battMaxEnergy = maxEnergy * (maxSocPct / 100))
    (hord : battMinEnergy ≤ battMaxEnergy) :
    ∀ t : ℕ, 1 ≤ t →
      (battMinEnergy ≤ (battSimEnergies battMinEnergy battMaxEnergy solar cons e0 t).min ∧
        (battSimEnergies battMinEnergy battMaxEnergy solar cons e0 t).min ≤ battMaxEnergy) ∧
      (battMinEnergy ≤ (battSimEnergies battMinEnergy battMaxEnergy solar cons e0 t).med ∧
        (battSimEnergies battMinEnergy battMaxEnergy solar cons e0 t).med ≤ battMaxEnergy) ∧
      (battMinEnergy ≤ (battSimEnergies battMinEnergy battMaxEnergy solar cons e0 t).max ∧
        (battSimEnergies battMinEnergy battMaxEnergy solar cons e0 t).max ≤ battMaxEnergy) := by
  intro t ht
  match t, ht with
  | t + 1, _ =>
    simp only [battSimEnergies, battStep]
    exact ⟨clampQ_mem _ _ _ hord, clampQ_mem _ _ _ hord, clampQ_mem _ _ _ hord⟩

/-- Witness for C3 after one step of a concrete run. -/
theorem batt_energy_within_bounds_witness :
    (1000 * ((10 : ℚ) / 100) = 1000 * (10 / 100) ∧ 1000 * ((10 : ℚ) / 100) ≤ 1000 * (90 / 100)) ∧
      (1000 * ((10 : ℚ) / 100) ≤
          (battSimEnergies (1000 * (10 / 100)) (1000 * (90 / 100)) (fun _ => some 5000)
              (fun _ => some ⟨200, 300, 400⟩) ⟨500, 500, 500⟩ 1).med ∧
        (battSimEnergies (1000 * ((10 : ℚ) / 100)) (1000 * (90 / 100)) (fun _ => some 5000)
              (fun _ => some ⟨200, 300, 400⟩) ⟨500, 500, 500⟩ 1).med ≤ 1000 * (90 / 100)) :=
  ⟨⟨rfl, by norm_num⟩,
    (batt_energy_within_bounds 1000 10 90 (1000 * (10 / 100)) (1000 * (90 / 100))
          (fun _ => some 5000) (fun _ => some ⟨200, 300, 400⟩) ⟨500, 500, 500⟩ rfl rfl
          (by norm_num) 1 (by norm_num)).2.1⟩

/-- C9: if at every hour the consumption channels satisfy
min ≤ med ≤ max, then the three carried scenario energies satisfy
energy_min ≤ energy_med ≤ energy_max after every step: they start equal,
the cross-paired nets preserve the order, and the clamp is monotone. -/
theorem batt_scenario_ordering (battMinEnergy battMaxEnergy currentEnergy : ℚ)
    (solar : ℕ → Option ℚ) (cons : ℕ → Option Scen)
    (hc : ∀ t : ℕ, ((cons t).getD zeroScen).min ≤ ((cons t).getD zeroScen).med ∧
        ((cons t).getD zeroScen).med ≤ ((cons t).getD zeroScen).max) :
    ∀ t : ℕ,
      (battSimEnergies battMinEnergy battMaxEnergy solar cons
          ⟨currentEnergy, currentEnergy, currentEnergy⟩ t).min ≤
        (battSimEnergies battMinEnergy battMaxEnergy solar cons
          ⟨currentEnergy, currentEnergy, currentEnergy⟩ t).med ∧
      (battSimEnergies battMinEnergy battMaxEnergy solar cons
          ⟨currentEnergy, currentEnergy, currentEnergy⟩ t).med ≤
        (battSimEnergies battMinEnergy battMaxEnergy solar cons
          ⟨currentEnergy, currentEnergy, currentEnergy⟩ t).max := by
  intro t
  induction t with
  | zero => exact ⟨le_refl _, le_refl _⟩
  | succ t ih =>
    simp only [battSimEnergies, battStep]
    constructor
    · apply clampQ_mono
      have h1 := (hc t).2
      linarith [ih.1]
    · apply clampQ_mono
      have h2 := (hc t).1
      linarith [ih.2]

/-- Witness for C9 after two steps of a concrete run. -/
theorem batt_scenario_ordering_witness :
    (∀ t : ℕ, (((fun _ : ℕ => some (Scen.mk 1 2 3)) t).getD zeroScen).min ≤
          (((fun _ : ℕ => some (Scen.mk 1 2 3)) t).getD zeroScen).med ∧
        (((fun _ : ℕ => some (Scen.mk 1 2 3)) t).getD zeroScen).med ≤
          (((fun _ : ℕ => some (Scen.mk 1 2 3)) t).getD zeroScen).max) ∧
      ((battSimEnergies 0 1000 (fun _ => some 5) (fun _ => some ⟨1, 2, 3⟩)
            ⟨500, 500, 500⟩ 2).min ≤
          (battSimEnergies 0 1000 (fun _ => some 5) (fun _ => some ⟨1, 2, 3⟩)
            ⟨500, 500, 500⟩ 2).med ∧
        (battSimEnergies 0 1000 (fun _ => some 5) (fun _ => some ⟨1, 2, 3⟩)
            ⟨500, 500, 500⟩ 2).med ≤
          (battSimEnergies 0 1000 (fun _ => some 5) (fun _ => some ⟨1, 2, 3⟩)
            ⟨500, 500, 500⟩ 2).max) :=
  ⟨fun _ => by norm_num [zeroScen],
    batt_scenario_ordering 0 1000 500 (fun _ => some 5) (fun _ => some ⟨1, 2, 3⟩)
      (fun _ => by norm_num [zeroScen]) 2⟩

/-- C2 (amended): every step of the battery simulation applies the full
net value `solar - consumption` (cross-paired per channel) directly and
then clamps; in particular whenever the updated energy stays within the
SOC bounds the whole net is added, with no maximum-charge-power cap.  The
configured `pv_batt_max_power` is never consulted in this code path. -/
theorem batt_full_net_applied (battMinEnergy battMaxEnergy : ℚ) (solar : ℕ → Option ℚ)
    (cons : ℕ → Option Scen) (e0 : Scen) (t : ℕ) :
    battSimEnergies battMinEnergy battMaxEnergy solar cons e0 (t + 1) =
      battStep battMinEnergy battMaxEnergy ((solar t).getD 0) ((cons t).getD zeroScen)
        (battSimEnergies battMinEnergy battMaxEnergy solar cons e0 t) ∧
    (battMinEnergy ≤ (battSimEnergies battMinEnergy battMaxEnergy solar cons e0 t).min +
          (((solar t).getD 0) - ((cons t).getD zeroScen).max) →
      (battSimEnergies battMinEnergy battMaxEnergy solar cons e0 t).min +
          (((solar t).getD 0) - ((cons t).getD zeroScen).max) ≤ battMaxEnergy →
      (battSimEnergies battMinEnergy battMaxEnergy solar cons e0 (t + 1)).min =
        (battSimEnergies battMinEnergy battMaxEnergy solar cons e0 t).min +
          (((solar t).getD 0) - ((cons t).getD zeroScen).max)) ∧
    (battMinEnergy ≤ (battSimEnergies battMinEnergy battMaxEnergy solar cons e0 t).med +
          (((solar t).getD 0) - ((cons t).getD zeroScen).med) →
      (battSimEnergies battMinEnergy battMaxEnergy solar cons e0 t).med +
          (((solar t).getD 0) - ((cons t).getD zeroScen).med) ≤ battMaxEnergy →
      (battSimEnergies battMinEnergy battMaxEnergy solar cons e0 (t + 1)).med =
        (battSimEnergies battMinEnergy battMaxEnergy solar cons e0 t).med +
          (((solar t).getD 0) - ((cons t).getD zeroScen).med)) ∧
    (battMinEnergy ≤ (battSimEnergies battMinEnergy battMaxEnergy solar cons e0 t).max +
          (((solar t).getD 0) - ((cons t).getD zeroScen).min) →
      (battSimEnergies battMinEnergy battMaxEnergy solar cons e0 t).max +
          (((solar t).getD 0) - ((cons t).getD zeroScen).min) ≤ battMaxEnergy →
      (battSimEnergies battMinEnergy battMaxEnergy solar cons e0 (t + 1)).max =
        (battSimEnergies battMinEnergy battMaxEnergy solar cons e0 t).max +
          (((solar t).getD 0) - ((cons t).getD zeroScen).min)) := by
  refine ⟨by simp only [battSimEnergies], ?_, ?_, ?_⟩ <;>
    · intro h1 h2
      simp only [battSimEnergies, battStep]
      exact clampQ_eq_self h1 h2

/-- Witness for C2 (amended): a 5000 Wh positive net is applied in full. -/
theorem batt_full_net_applied_witness :
    ((0 : ℚ) ≤ 1000 + (5000 - 0) ∧ (1000 : ℚ) + (5000 - 0) ≤ 100000) ∧
      (battSimEnergies 0 100000 (fun _ => some 5000) (fun _ => some zeroScen)
          ⟨1000, 1000, 1000⟩ (0 + 1)).med =
        (battSimEnergies 0 100000 (fun _ => some 5000) (fun _ => some zeroScen)
            ⟨1000, 1000, 1000⟩ 0).med +
          (((fun _ : ℕ => some (5000 : ℚ)) 0).getD 0 -
            (((fun _ : ℕ => some zeroScen) 0).getD zeroScen).med) :=
  ⟨⟨by norm_num, by norm_num⟩,
    (batt_full_net_applied 0 100000 (fun _ => some 5000) (fun _ => some zeroScen)
          ⟨1000, 1000, 1000⟩ 0).2.2.1
      (by simp only [battSimEnergies]; norm_num [zeroScen])
      (by simp only [battSimEnergies]; norm_num [zeroScen])⟩

/-- Counterexample to C2 as stated: with net = 5000 - 0 > 0 and energy
1000 below the max bound 100000, the step increases the energy by 5000,
which exceeds the configured maximum charge power default of 3000 W. -/
theorem batt_charge_uncapped_cex :
    (0 : ℚ) < 5000 - 0 ∧ (1000 : ℚ) < 100000 ∧
      battSimEnergies 0 100000 (fun _ => some 5000) (fun _ => some zeroScen)
          ⟨1000, 1000, 1000⟩ 1 = ⟨6000, 6000, 6000⟩ ∧
      ¬((6000 : ℚ) - 1000 ≤ 3000) := by
  refine ⟨by norm_num, by norm_num, ?_, by norm_num⟩
  simp only [battSimEnergies, battStep, Option.getD, zeroScen]
  norm_num [clampQ, max_def, min_def]

/-- Helper: with no solar contribution and no consumption on any hour,
and an initial energy within the clamp bounds, the carried energies stay
at the initial value forever. -/
theorem battSim_const_no_load (battMinEnergy battMaxEnergy e : ℚ)
    (solar : ℕ → Option ℚ) (cons : ℕ → Option Scen)
    (hsolar : ∀ t, (solar t).getD 0 = 0) (hcons : ∀ t, (cons t).getD zeroScen = zeroScen)
    (hlo : battMinEnergy ≤ e) (hhi : e ≤ battMaxEnergy) :
    ∀ t : ℕ, battSimEnergies battMinEnergy battMaxEnergy solar cons ⟨e, e, e⟩ t = ⟨e, e, e⟩ := by
  intro t
  induction t with
  | zero => rfl
  | succ t ih =>
    simp only [battSimEnergies, ih, battStep, hsolar t, hcons t]
    simp only [zeroScen]
    have he : e + (0 - 0) = e := by ring
    simp only [he]
    rw [clampQ_eq_self hlo hhi]

/-- C5 (amended): in a battery run where solar contributes 0 and all
consumption channels are 0 at every hour, and additionally the maximum
energy is positive and the initial capacity lies between the configured
min and max SOC percentages (so the initial energy is inside the clamp
bounds), every output point equals the initial measured capacity on all
three channels. -/
theorem batt_no_load_constant (currentCapacity maxEnergy minSocPct maxSocPct : ℚ)
    (solar : ℕ → Option ℚ) (cons : ℕ → Option Scen) (days : ℕ)
    (hME : 0 < maxEnergy) (hlo : minSocPct ≤ currentCapacity)
    (hhi : currentCapacity ≤ maxSocPct)
    (hsolar : ∀ t, (solar t).getD 0 = 0)
    (hcons : ∀ t, (cons t).getD zeroScen = zeroScen) :
    ∀ p ∈ forecast_battery_capacity currentCapacity maxEnergy minSocPct maxSocPct solar cons days,
      p = ⟨currentCapacity, currentCapacity, currentCapacity⟩ := by
  intro p hp
  have hblo : maxEnergy * (minSocPct / 100) ≤ currentCapacity / 100 * maxEnergy := by
    have h1 : minSocPct / 100 ≤ currentCapacity / 100 := by linarith
    have h2 := mul_le_mul_of_nonneg_left h1 hME.le
    calc maxEnergy * (minSocPct / 100) ≤ maxEnergy * (currentCapacity / 100) := h2
      _ = currentCapacity / 100 * maxEnergy := by ring
  have hbhi : currentCapacity / 100 * maxEnergy ≤ maxEnergy * (maxSocPct / 100) := by
    have h1 : currentCapacity / 100 ≤ maxSocPct / 100 := by linarith
    have h2 := mul_le_mul_of_nonneg_left h1 hME.le
    calc currentCapacity / 100 * maxEnergy = maxEnergy * (currentCapacity / 100) := by ring
      _ ≤ maxEnergy * (maxSocPct / 100) := h2
  unfold forecast_battery_capacity at hp
  simp only [List.mem_cons, List.mem_map, List.mem_range] at hp
  rcases hp with rfl | ⟨t, -, rfl⟩
  · rfl
  · rw [battSim_const_no_load _ _ _ _ _ hsolar hcons hblo hbhi]
    unfold toCapacity
    have hc : currentCapacity / 100 * maxEnergy / maxEnergy * 100 = currentCapacity := by
      field_simp
      ring
    rw [hc]

/-- Witness for C5 (amended) at the first simulated hour of a concrete run. -/
theorem batt_no_load_constant_witness :
    ((0 : ℚ) < 1000 ∧ (10 : ℚ) ≤ 50 ∧ (50 : ℚ) ≤ 90) ∧
      toCapacity 1000
          (battSimEnergies (1000 * (10 / 100)) (1000 * (90 / 100)) (fun _ => none)
            (fun _ => none) ⟨50 / 100 * 1000, 50 / 100 * 1000, 50 / 100 * 1000⟩ (0 + 1)) =
        ⟨50, 50, 50⟩ :=
  ⟨⟨by norm_num, by norm_num, by norm_num⟩,
    batt_no_load_constant 50 1000 10 90 (fun _ => none) (fun _ => none) 1 (by norm_num)
      (by norm_num) (by norm_num) (fun _ => rfl) (fun _ => rfl) _
      (by
        unfold forecast_battery_capacity
        refine List.mem_cons_of_mem _ ?_
        exact List.mem_map_of_mem _ (by simp))⟩

/-- Counterexample to C5 as stated: with initial capacity 5 % below the
10 % min SOC and no load at all, the first simulated hour is clamped up
and reports 10 %, not the initial 5 %. -/
theorem batt_no_load_drift_cex :
    (forecast_battery_capacity 5 1000 10 90 (fun _ => none) (fun _ => none) 1)[1]? =
        some ⟨10, 10, 10⟩ ∧ (⟨10, 10, 10⟩ : Scen) ≠ ⟨5, 5, 5⟩ := by
  constructor
  · unfold forecast_battery_capacity
    rw [show (1 : ℕ) = 0 + 1 from rfl, List.getElem?_cons_succ]
    rw [List.getElem?_map, List.getElem?_range (by norm_num)]
    have hE : battSimEnergies (1000 * ((10 : ℚ) / 100)) (1000 * ((90 : ℚ) / 100))
        (fun _ => none) (fun _ => none)
        ⟨5 / 100 * 1000, 5 / 100 * 1000, 5 / 100 * 1000⟩ 1 = ⟨100, 100, 100⟩ := by
      simp only [battSimEnergies, battStep, Option.getD_none, zeroScen]
      norm_num [clampQ, max_def, min_def]
    simp only [Option.map_some', Nat.zero_add]
    rw [hE]
    unfold toCapacity
    norm_num
  · simp [Scen.mk.injEq]
/-- Helper: when every kind has a stored forecast, the dict has 4 entries. -/
theorem storedCount_eq_four {D : Type} (f : ForecastKind → Option D)
    (h : ∀ k, (f k).isSome) : storedCount f = 4 := by
  unfold storedCount allKinds
  simp [h]

/-- Helper: once every forecast kind has a stored result, the prediction
loop never escalates, whatever the tasks and their outcomes are. -/
theorem runGo_ok_of_all_stored {D : Type} (now : ℤ) (outcomes : ForecastKind → Option D) :
    ∀ (tasks : List PredictionTask) (st : CoordState D), (∀ k, (st.forecasts k).isSome) →
      ∃ r, runPredictionTasksGo 4 now outcomes tasks st = Except.ok r := by
  intro tasks
  induction tasks with
  | nil => exact fun st _ => ⟨(st, []), rfl⟩
  | cons task rest ih =>
    intro st hst
    by_cases hn : needsUpdate task st now
    · cases ho : outcomes task.key with
      | some d =>
        have hst' : ∀ k, (updFun st.forecasts task.key (some d) k).isSome := by
          intro k
          unfold updFun
          by_cases hk : k = task.key
          · simp [hk]
          · simp [hk, hst k]
        obtain ⟨r, hr⟩ :=
          ih ⟨updFun st.forecasts task.key (some d), updFun st.lastRun task.key (some now)⟩ hst'
        refine ⟨(r.1, (task.key, d) :: r.2), ?_⟩
        simp only [runPredictionTasksGo, hn, if_true, ho, hr]
      | none =>
        have hsc : storedCount st.forecasts = 4 := storedCount_eq_four _ hst
        obtain ⟨r, hr⟩ := ih st hst
        refine ⟨r, ?_⟩
        simp only [runPredictionTasksGo, hn, if_true, ho, hsc, ne_eq, not_true_eq_false,
          if_false, hr]
    · obtain ⟨r, hr⟩ := ih st hst
      refine ⟨r, ?_⟩
      simp only [Bool.not_eq_true] at hn
      simp only [runPredictionTasksGo, hn, Bool.false_eq_true, if_false, hr]

/-- C4: the coordinator's failure policy.  First part: once every
forecast kind has produced at least one result, a tick's prediction loop
never raises, whatever outcomes the tasks have (failures are only logged
and the remaining tasks still run).  Second part: when the loop reaches a
failing task while not every forecast kind has ever produced a result, it
raises `ConfigEntryNotReady` (modelled as `Except.error ()`). -/
theorem coordinator_failure_policy (D : Type) :
    (∀ (st : CoordState D) (now : ℤ) (outcomes : ForecastKind → Option D),
        (∀ k, (st.forecasts k).isSome) →
          ∃ r, runPredictionTasks now outcomes st = Except.ok r) ∧
    (∀ (st : CoordState D) (now : ℤ) (outcomes : ForecastKind → Option D)
        (task : PredictionTask) (rest : List PredictionTask),
        needsUpdate task st now = true → outcomes task.key = none →
        storedCount st.forecasts ≠ predictionTasks.length →
        runPredictionTasksGo predictionTasks.length now outcomes (task :: rest) st =
          Except.error ()) := by
  constructor
  · intro st now outcomes hst
    unfold runPredictionTasks
    exact runGo_ok_of_all_stored now outcomes predictionTasks st hst
  · intro st now outcomes task rest hn ho hsc
    simp only [runPredictionTasksGo, hn, if_true, ho, hsc, ne_eq, not_false_eq_true, if_true]

/-- Witness for C4: a fully-bootstrapped state survives an all-failing
tick, and a three-of-four state escalates when the grid task fails. -/
theorem coordinator_failure_policy_witness :
    (∀ k, ((fun _ : ForecastKind => (some 0 : Option ℕ)) k).isSome) ∧
      (∃ r, runPredictionTasks 0 (fun _ => (none : Option ℕ))
          ⟨fun _ => some 0, fun _ => none⟩ = Except.ok r) ∧
      needsUpdate ⟨ForecastKind.grid, 1⟩
          (⟨fun k => if k = ForecastKind.grid then none else some 0, fun _ => none⟩ :
            CoordState ℕ) 0 = true ∧
      storedCount (fun k => if k = ForecastKind.grid then (none : Option ℕ) else some 0) ≠
        predictionTasks.length ∧
      runPredictionTasksGo predictionTasks.length 0 (fun _ => (none : Option ℕ))
          (⟨ForecastKind.grid, 1⟩ :: [])
          ⟨fun k => if k = ForecastKind.grid then none else some 0, fun _ => none⟩ =
        Except.error () := by
  refine ⟨fun k => rfl, ?_, rfl, ?_, ?_⟩
  · exact (coordinator_failure_policy ℕ).1 ⟨fun _ => some 0, fun _ => none⟩ 0 (fun _ => none)
      (fun k => rfl)
  · decide
  · exact (coordinator_failure_policy ℕ).2
      ⟨fun k => if k = ForecastKind.grid then none else some 0, fun _ => none⟩ 0 (fun _ => none)
      ⟨ForecastKind.grid, 1⟩ [] rfl rfl (by decide)

/-- C7: for a prediction task that is due: on success its result is
stored under its forecast kind and its last-run timestamp is stamped with
`now` before the loop continues; on a non-bootstrap failure the loop
continues with the state unchanged (previous result and last-run time
intact); and a task due now is still due at any later tick time, so the
failure is retried. -/
theorem coordinator_task_update_semantics (D : Type) (st : CoordState D) (now : ℤ)
    (outcomes : ForecastKind → Option D) (task : PredictionTask)
    (rest : List PredictionTask) (n : ℕ) (hn : needsUpdate task st now = true) :
    (∀ d, outcomes task.key = some d →
        runPredictionTasksGo n now outcomes (task :: rest) st =
          match runPredictionTasksGo n now outcomes rest
              ⟨updFun st.forecasts task.key (some d), updFun st.lastRun task.key (some now)⟩ with
          | Except.ok (stFinal, executed) => Except.ok (stFinal, (task.key, d) :: executed)
          | Except.error e => Except.error e) ∧
    (outcomes task.key = none → storedCount st.forecasts = n →
        runPredictionTasksGo n now outcomes (task :: rest) st =
          runPredictionTasksGo n now outcomes rest st) ∧
    (∀ nowLater : ℤ, now ≤ nowLater → needsUpdate task st nowLater = true) := by
  refine ⟨?_, ?_, ?_⟩
  · intro d hd
    simp only [runPredictionTasksGo, hn, if_true, hd]
  · intro ho hsc
    simp only [runPredictionTasksGo, hn, if_true, ho, hsc, ne_eq, not_true_eq_false, if_false]
  · intro nowLater hnl
    unfold needsUpdate at hn ⊢
    cases hlr : st.lastRun task.key with
    | none => rfl
    | some lastRun =>
        rw [hlr] at hn
        simp only [decide_eq_true_eq] at hn ⊢
        omega

/-- Witness for C7 on a concrete one-task list with a successful outcome. -/
theorem coordinator_task_update_semantics_witness :
    needsUpdate ⟨ForecastKind.battery, 1⟩
        (⟨fun _ => some 7, fun _ => none⟩ : CoordState ℕ) 0 = true ∧
      runPredictionTasksGo 4 0 (fun _ => some 9) (⟨ForecastKind.battery, 1⟩ :: [])
          (⟨fun _ => some 7, fun _ => none⟩ : CoordState ℕ) =
        match runPredictionTasksGo 4 0 (fun _ => some (9 : ℕ)) []
            ⟨updFun (fun _ => some 7) ForecastKind.battery (some 9),
              updFun (fun _ => none) ForecastKind.battery (some 0)⟩ with
        | Except.ok (stFinal, executed) =>
            Except.ok (stFinal, (ForecastKind.battery, 9) :: executed)
        | Except.error e => Except.error e :=
  ⟨rfl,
    (coordinator_task_update_semantics ℕ ⟨fun _ => some 7, fun _ => none⟩ 0 (fun _ => some 9)
          ⟨ForecastKind.battery, 1⟩ [] 4 rfl).1 9 rfl⟩


/-- Helper: the source's aggregation loop, started on a bucket with at
least one collected point, emits exactly the greedy re-anchored buckets of
the remaining points. -/
theorem aggGo_eq (fn : AggFn) (pp : ℚ → ℚ) (interval : ℚ) :
    ∀ (rest : List TimedScen) (anchor : ℚ) (sums : Scen) (count : ℕ), 0 < count →
      aggGo fn pp interval rest anchor sums count =
        emitBucket fn pp interval anchor
            ((rest.takeWhile fun q => q.time - anchor < interval).foldl
              (fun s q => addScen s q.vals) sums)
            (count + (rest.takeWhile fun q => q.time - anchor < interval).length) ::
          (greedyBuckets interval (rest.dropWhile fun q => q.time - anchor < interval)).map
            (bucketAgg fn pp interval) := by
  intro rest
  induction rest with
  | nil =>
    intro anchor sums count hc
    simp [aggGo, greedyBuckets, hc]
  | cons p rest ih =>
    intro anchor sums count hc
    by_cases hcond : p.time - anchor < interval
    · have hd : decide (p.time - anchor < interval) = true := decide_eq_true hcond
      rw [@List.takeWhile_cons_of_pos TimedScen (fun q => decide (q.time - anchor < interval))
            p rest hd,
          @List.dropWhile_cons_of_pos TimedScen (fun q => decide (q.time - anchor < interval))
            p rest hd]
      have hL : aggGo fn pp interval (p :: rest) anchor sums count =
          aggGo fn pp interval rest anchor (addScen sums p.vals) (count + 1) := by
        simp only [aggGo, if_pos hcond]
      rw [hL, ih anchor (addScen sums p.vals) (count + 1) (by omega)]
      simp only [List.foldl_cons, List.length_cons]
      have hcnt : count + 1 + (List.takeWhile (fun q => decide (q.time - anchor < interval))
          rest).length = count + ((List.takeWhile (fun q => decide (q.time - anchor < interval))
          rest).length + 1) := by omega
      rw [hcnt]
    · have hd : ¬decide (p.time - anchor < interval) = true := by simpa using hcond
      rw [@List.takeWhile_cons_of_neg TimedScen (fun q => decide (q.time - anchor < interval))
            p rest hd,
          @List.dropWhile_cons_of_neg TimedScen (fun q => decide (q.time - anchor < interval))
            p rest hd]
      have hL : aggGo fn pp interval (p :: rest) anchor sums count =
          emitBucket fn pp interval anchor sums count ::
            aggGo fn pp interval rest p.time p.vals 1 := by
        simp only [aggGo, if_neg hcond]
      rw [hL, ih p.time p.vals 1 (by omega)]
      rw [greedyBuckets]
      simp only [List.map_cons, List.foldl_nil, List.length_nil, Nat.add_zero]
      have hb : bucketAgg fn pp interval
          (p :: rest.takeWhile fun q => q.time - p.time < interval) =
          emitBucket fn pp interval p.time
            ((rest.takeWhile fun q => q.time - p.time < interval).foldl
              (fun s q => addScen s q.vals) p.vals)
            ((rest.takeWhile fun q => q.time - p.time < interval).length + 1) := rfl
      rw [hb]
      have hcnt2 : 1 + (rest.takeWhile fun q => q.time - p.time < interval).length =
          (rest.takeWhile fun q => q.time - p.time < interval).length + 1 := by omega
      rw [hcnt2]

/-- C8 (amended): for a positive interval, `aggregate_by_interval`
equals the greedy bucketing in which each bucket starts at its own first
point's timestamp and collects the following points closer than
`interval` to that start (buckets are re-anchored at each bucket's first
point, not fixed windows counted from the series start); each bucket's
three channels are summed or averaged independently, each emitted point is
labeled with noon of the day containing bucket-start + interval/2, and the
trailing partial bucket is emitted. -/
theorem aggregate_rebucketed (fn : AggFn) (pp : ℚ → ℚ) (interval : ℚ) (h : 0 < interval)
    (pts : List TimedScen) :
    aggregate_by_interval fn pp interval pts =
      (greedyBuckets interval pts).map (bucketAgg fn pp interval) := by
  cases pts with
  | nil => simp [aggregate_by_interval, greedyBuckets]
  | cons p rest =>
    have h0 : p.time - p.time < interval := by simpa using h
    have hL : aggregate_by_interval fn pp interval (p :: rest) =
        aggGo fn pp interval rest p.time p.vals 1 := by
      simp only [aggregate_by_interval, if_pos h0]
    rw [hL, aggGo_eq fn pp interval rest p.time p.vals 1 (by omega)]
    rw [greedyBuckets]
    simp only [List.map_cons]
    congr 1
    unfold bucketAgg
    congr 1
    omega

/-- Witness for C8 (amended) on the concrete three-point series. -/
theorem aggregate_rebucketed_witness :
    (0 : ℚ) < 1440 ∧
      aggregate_by_interval AggFn.sum id 1440 aggCexPts =
        (greedyBuckets 1440 aggCexPts).map (bucketAgg AggFn.sum id 1440) :=
  ⟨by norm_num, aggregate_rebucketed AggFn.sum id 1440 (by norm_num) aggCexPts⟩

/-- Counterexample to C8 as stated: on the three-point series the code
produces two buckets (the gap re-anchors the second bucket at time 1740,
which then also absorbs the point at 2940), while fixed interval-sized
windows anchored at the first point's timestamp would separate 1740 and
2940 into different windows and produce three output points. -/
theorem aggregate_fixed_window_cex :
    aggregate_by_interval AggFn.sum id 1440 aggCexPts ≠
      aggregateFixedWindows AggFn.sum id 1440 aggCexPts := by
  intro h
  have hlen := congrArg List.length h
  have hL : (aggregate_by_interval AggFn.sum id 1440 aggCexPts).length = 2 := by
    norm_num [aggCexPts, aggregate_by_interval, aggGo]
  have w0 : windowIndex 1440 0 ⟨0, ⟨1, 1, 1⟩⟩ = 0 := by
    unfold windowIndex
    rw [Int.floor_eq_iff]
    norm_num
  have w1 : windowIndex 1440 0 ⟨1740, ⟨2, 2, 2⟩⟩ = 1 := by
    unfold windowIndex
    rw [Int.floor_eq_iff]
    norm_num
  have w2 : windowIndex 1440 0 ⟨2940, ⟨4, 4, 4⟩⟩ = 2 := by
    unfold windowIndex
    rw [Int.floor_eq_iff]
    norm_num
  have hR : (aggregateFixedWindows AggFn.sum id 1440 aggCexPts).length = 3 := by
    norm_num [aggCexPts, aggregateFixedWindows, fixedWindowBuckets, w0, w1, w2]
  rw [hL, hR] at hlen
  exact absurd hlen (by norm_num)

end SolarForecastML
